import Mathlib

/-!
Shallow embedding of the "Platinum Pricing Engine" (src/app.py), the pricing
recommendation core of the karmic-app repository.

Numbers are modelled as rationals (`ℚ`): every constant in the source
(8.1, 1.05, 0.95, 0.9, 0.8, 100, 180, 90) is an exact decimal, and every
claim under scrutiny is an algebraic/ordering property of those constants,
so the embedding is exact where the Python floats are exact.

The engine is the block guarded by `st.button("🚀 ANALYZE & RECOMMEND", ...)`
(app.py lines 144-217): the nine operator inputs feed the unit-economics
calculator (lines 151-164) and then the ordered if/elif ladder
(lines 166-217).  Presentation-only strings (the `reason` f-strings and the
`bg_color` hex codes) are omitted; the `strategy` string and the dead local
`strat_res` (assigned only in the BLOCK branch, line 174) are kept verbatim,
because the ladder's observable output is `(rec_price, strategy)`.
-/

/-- The nine operator inputs of the ANALYZE & RECOMMEND block
(app.py lines 125-139), named after the Python locals. -/
structure Metrics where
  cost : ℚ
  curr_price : ℚ
  comp_price : ℚ
  inv_days : ℚ
  ret_rate : ℚ
  min_margin : ℚ
  ad_spend : ℚ
  ad_sales : ℚ
  total_units : ℚ
deriving DecidableEq, Repr

/-- `cpa = ad_spend / total_units if total_units > 0 else 0` (app.py line 151). -/
def cpa (m : Metrics) : ℚ :=
  if m.total_units > 0 then m.ad_spend / m.total_units else 0

/-- `actual_acos = (ad_spend / ad_sales * 100) if ad_sales > 0 else 0` (app.py line 152). -/
def actual_acos (m : Metrics) : ℚ :=
  if m.ad_sales > 0 then m.ad_spend / m.ad_sales * 100 else 0

/-- `refund_tax = 0; if ret_rate > 8.1: refund_tax = (ret_rate / 100) * curr_price`
(app.py lines 155-157). -/
def refund_tax (m : Metrics) : ℚ :=
  if m.ret_rate > 8.1 then m.ret_rate / 100 * m.curr_price else 0

/-- `total_cost = cost + cpa + refund_tax` (app.py line 159). -/
def total_cost (m : Metrics) : ℚ := m.cost + cpa m + refund_tax m

/-- `net_profit = curr_price - total_cost` (app.py line 160). -/
def net_profit (m : Metrics) : ℚ := m.curr_price - total_cost m

/-- `margin_dollar = curr_price - (cost + refund_tax)` (app.py line 163). -/
def margin_dollar (m : Metrics) : ℚ := m.curr_price - (m.cost + refund_tax m)

/-- `be_acos = (margin_dollar / curr_price) * 100 if curr_price > 0 else 0`
(app.py line 164). -/
def be_acos (m : Metrics) : ℚ :=
  if m.curr_price > 0 then margin_dollar m / m.curr_price * 100 else 0

/-- The observable state of the ladder: the recommended price, the `strategy`
variable, and the dead local `strat_res` (assigned only in the BLOCK branch,
never read afterwards).  Presentation fields (`reason`, `bg_color`) omitted. -/
structure RecOut where
  rec_price : ℚ
  strategy : String
  strat_res : Option String
deriving DecidableEq, Repr

/-- The ordered if/elif ladder of app.py lines 166-217, evaluated on the derived
economics.  Initial values: `rec_price = curr_price`, `strategy = "MAINTAIN"`.
Note that the first branch (line 173-177) assigns `strat_res`, not `strategy`:
`strategy` keeps its initial value `"MAINTAIN"` there, exactly as in the source. -/
def engine (m : Metrics) : RecOut :=
  if m.ret_rate > 8.1 then
    { rec_price := m.curr_price, strategy := "MAINTAIN",
      strat_res := some "⛔ BLOCK HIKE" }
  else if m.inv_days > 180 then
    { rec_price := max (m.cost * 1.05) (m.comp_price * 0.95),
      strategy := "📉 LIQUIDATE", strat_res := none }
  else if actual_acos m > be_acos m then
    { rec_price := m.curr_price, strategy := "🛡️ DEFENSE (CUT ADS)",
      strat_res := none }
  else if net_profit m < 0 then
    { rec_price := total_cost m / (1 - m.min_margin / 100),
      strategy := "📈 PROFIT RECOVERY", strat_res := none }
  else if actual_acos m < be_acos m * 0.8 ∧ m.inv_days < 90 ∧
      m.curr_price < m.comp_price then
    { rec_price := min m.comp_price (m.curr_price * 1.05),
      strategy := "⚔️ OFFENSE (SCALE)", strat_res := none }
  else if m.curr_price < m.comp_price * 0.9 then
    { rec_price := m.comp_price * 0.95, strategy := "🚀 CATCH UP",
      strat_res := none }
  else
    { rec_price := m.curr_price, strategy := "MAINTAIN", strat_res := none }

/-- The seven rules of the ladder, in source order. -/
inductive Rule where
  | block | liquidate | defense | profitRecovery | offense | catchUp | maintain
deriving DecidableEq, Repr

/-- Which branch of the if/elif ladder is taken: same guards, in the same
order, as `engine`. -/
def firedRule (m : Metrics) : Rule :=
  if m.ret_rate > 8.1 then Rule.block
  else if m.inv_days > 180 then Rule.liquidate
  else if actual_acos m > be_acos m then Rule.defense
  else if net_profit m < 0 then Rule.profitRecovery
  else if actual_acos m < be_acos m * 0.8 ∧ m.inv_days < 90 ∧
      m.curr_price < m.comp_price then Rule.offense
  else if m.curr_price < m.comp_price * 0.9 then Rule.catchUp
  else Rule.maintain

/-- A rule's guard in context: its own condition conjoined with the negation of
every earlier guard in the ladder order. -/
def ctxGuard (m : Metrics) : Rule → Prop
  | Rule.block => m.ret_rate > 8.1
  | Rule.liquidate => ¬ m.ret_rate > 8.1 ∧ m.inv_days > 180
  | Rule.defense => ¬ m.ret_rate > 8.1 ∧ ¬ m.inv_days > 180 ∧
      actual_acos m > be_acos m
  | Rule.profitRecovery => ¬ m.ret_rate > 8.1 ∧ ¬ m.inv_days > 180 ∧
      ¬ actual_acos m > be_acos m ∧ net_profit m < 0
  | Rule.offense => ¬ m.ret_rate > 8.1 ∧ ¬ m.inv_days > 180 ∧
      ¬ actual_acos m > be_acos m ∧ ¬ net_profit m < 0 ∧
      (actual_acos m < be_acos m * 0.8 ∧ m.inv_days < 90 ∧
        m.curr_price < m.comp_price)
  | Rule.catchUp => ¬ m.ret_rate > 8.1 ∧ ¬ m.inv_days > 180 ∧
      ¬ actual_acos m > be_acos m ∧ ¬ net_profit m < 0 ∧
      ¬ (actual_acos m < be_acos m * 0.8 ∧ m.inv_days < 90 ∧
        m.curr_price < m.comp_price) ∧ m.curr_price < m.comp_price * 0.9
  | Rule.maintain => ¬ m.ret_rate > 8.1 ∧ ¬ m.inv_days > 180 ∧
      ¬ actual_acos m > be_acos m ∧ ¬ net_profit m < 0 ∧
      ¬ (actual_acos m < be_acos m * 0.8 ∧ m.inv_days < 90 ∧
        m.curr_price < m.comp_price) ∧ ¬ m.curr_price < m.comp_price * 0.9

/-- The f-string display boundary `f"${rec_price:.2f}"` (app.py line 223)
formats a monetary value to 2 decimal places; `round2` models that final
rounding: round to the nearest multiple of 1/100. -/
def round2 (q : ℚ) : ℚ := ((round (q * 100) : ℤ) : ℚ) / 100

/-- The price as displayed by the header metric (app.py line 223): the
engine's full-precision recommended price, rounded at the output boundary. -/
def displayed_price (m : Metrics) : ℚ := round2 ((engine m).rec_price)

/-- An input on which PROFIT RECOVERY fires and the engine's internal price
carries full precision (250/7, not a 2-decimal value). -/
def fracInput : Metrics :=
  { cost := 10, curr_price := 20, comp_price := 22, inv_days := 45,
    ret_rate := 2, min_margin := 30, ad_spend := 1500, ad_sales := 3000,
    total_units := 100 }

/-- Scenario 3's input (spec §8, also the app's built-in defaults,
app.py lines 117-118). -/
def scenario3 : Metrics :=
  { cost := 10, curr_price := 20, comp_price := 22, inv_days := 45,
    ret_rate := 2, min_margin := 20, ad_spend := 500, ad_sales := 2000,
    total_units := 100 }

/-- Scenario 3's input with the return rate raised above the 8.1 threshold, so
the BLOCK branch of the ladder is taken. -/
def blockInput : Metrics := { scenario3 with ret_rate := 9 }

/-- The all-zero input: in particular `curr_price = 0`, the degenerate case. -/
def zeroInput : Metrics :=
  { cost := 0, curr_price := 0, comp_price := 0, inv_days := 0, ret_rate := 0,
    min_margin := 0, ad_spend := 0, ad_sales := 0, total_units := 0 }

/-- Inputs of the simple margin-only ladder (spec §4.3, second ladder). -/
structure SimpleMetrics where
  cost : ℚ
  curr_price : ℚ
  comp_price : ℚ
  min_margin : ℚ
  target_margin : ℚ
  ret_rate : ℚ
  inv_days : ℚ
deriving DecidableEq, Repr

/-- `price_from_margin(cost, margin_pct) = cost / (1 - margin_pct/100)`
(spec §4.1; precondition `margin_pct < 100`). -/
def price_from_margin (cost margin_pct : ℚ) : ℚ := cost / (1 - margin_pct / 100)

/-- Current gross margin as a percentage: `(price - cost)/price * 100`
(spec glossary; used by the simple ladder's margin comparison). -/
def cur_margin_pct (s : SimpleMetrics) : ℚ :=
  (s.curr_price - s.cost) / s.curr_price * 100

/-- Modelled from the spec: the simple margin-only ladder (spec §4.3, second
ladder; its script variant is not under src/).  Ordering: (1) return-rate block
at threshold 8.0 strictly; (2) price below the margin floor
`price_from_margin(cost, min_margin)` → PROFIT_RECOVERY at the
`target_margin_pct`-derived price; (3) inventory over 120 days → LIQUIDATE via
`max(cost*1.05, comp*0.95)`; (4) underpriced by more than $1 and below target
margin → MARKET_CATCH_UP at `min(price_from_margin(cost, target_margin),
comp - 0.50)`; (5) else MAINTAIN.  Returns (price, strategy). -/
def simple_ladder (s : SimpleMetrics) : ℚ × String :=
  if s.ret_rate > 8.0 then (s.curr_price, "BLOCKED")
  else if s.curr_price < price_from_margin s.cost s.min_margin then
    (price_from_margin s.cost s.target_margin, "PROFIT_RECOVERY")
  else if s.inv_days > 120 then
    (max (s.cost * 1.05) (s.comp_price * 0.95), "LIQUIDATE")
  else if s.curr_price < s.comp_price - 1 ∧ cur_margin_pct s < s.target_margin
      then
    (min (price_from_margin s.cost s.target_margin) (s.comp_price - 0.5),
      "MARKET_CATCH_UP")
  else (s.curr_price, "MAINTAIN")

/-- Scenario 1's input for the simple ladder (spec §8). -/
def scenario1s : SimpleMetrics :=
  { cost := 15, curr_price := 22, comp_price := 25, min_margin := 20,
    target_margin := 40, ret_rate := 2.5, inv_days := 45 }

/-- Scenario 1's metric fields fed to the implemented engine, with the
advertising fields defaulted to 0 (the loader contract's defined default). -/
def scenario1m : Metrics :=
  { cost := 15, curr_price := 22, comp_price := 25, inv_days := 45,
    ret_rate := 2.5, min_margin := 20, ad_spend := 0, ad_sales := 0,
    total_units := 0 }

/-- C1 (code bug): on a blocked input (return rate 9 > 8.1) the ladder takes
the first branch and leaves the price unchanged, but the branch assigns the
block label to the dead local `strat_res` instead of `strategy`, so the
returned strategy is still `"MAINTAIN"`, not the BLOCK_HIKE label. -/
theorem c1_block_branch_dead_assignment :
    blockInput.ret_rate > 8.1 ∧
    (engine blockInput).strategy = "MAINTAIN" ∧
    (engine blockInput).strat_res = some "⛔ BLOCK HIKE" ∧
    (engine blockInput).rec_price = blockInput.curr_price := by
  refine ⟨by norm_num [blockInput, scenario3], ?_, ?_, ?_⟩ <;>
    norm_num [engine, blockInput, scenario3]

/-- C2 counterexample: at the concrete degenerate input with
`curr_price = 0` the engine does not return the ERROR sentinel; it falls
through the ladder to MAINTAIN with the price left at 0. -/
theorem c2_no_error_sentinel :
    zeroInput.curr_price = 0 ∧
    (engine zeroInput).strategy = "MAINTAIN" ∧
    (engine zeroInput).strategy ≠ "ERROR" ∧
    (engine zeroInput).rec_price = 0 := by
  have h : engine zeroInput =
      { rec_price := 0, strategy := "MAINTAIN", strat_res := none } := by
    norm_num [engine, zeroInput, actual_acos, be_acos, net_profit, total_cost,
      cpa, refund_tax, margin_dollar]
  refine ⟨rfl, by rw [h], by rw [h]; decide, by rw [h]⟩

/-- C2 amended: for `curr_price = 0` no division by zero occurs — the guarded
`be_acos` is 0 and `refund_tax` collapses to 0 — and the engine never returns
an ERROR sentinel: it proceeds through the normal ladder. -/
theorem c2_zero_price_no_fault (m : Metrics) (h : m.curr_price = 0) :
    be_acos m = 0 ∧ refund_tax m = 0 ∧ (engine m).strategy ≠ "ERROR" := by
  refine ⟨by simp [be_acos, h], by simp [refund_tax, h], ?_⟩
  unfold engine
  split_ifs <;> dsimp only <;> decide

/-- Witness for C2 amended at the all-zero input. -/
theorem c2_zero_price_no_fault_witness :
    be_acos zeroInput = 0 ∧ refund_tax zeroInput = 0 ∧
    (engine zeroInput).strategy ≠ "ERROR" :=
  c2_zero_price_no_fault zeroInput rfl

/-- C3: exactly one rule of the ordered seven-rule ladder fires on every
input — the guards-in-context are mutually exclusive and exhaustive — and the
fired rule is exactly the first whose own guard holds. -/
theorem c3_exactly_one_rule (m : Metrics) :
    (∃! r : Rule, ctxGuard m r) ∧
    (∀ r : Rule, ctxGuard m r ↔ firedRule m = r) := by
  have h : ∀ r : Rule, ctxGuard m r ↔ firedRule m = r := by
    intro r
    cases r <;> simp only [ctxGuard, firedRule] <;> split_ifs <;> simp_all
  exact ⟨⟨firedRule m, (h _).mpr rfl, fun r hr => by
    have := (h r).mp hr; simp [this]⟩, h⟩

/-- C4 counterexample: the implemented engine is the hardcoded platinum
ladder; on Scenario 1's input it returns OFFENSE (SCALE) at price 23.1, while
the spec's simple margin-only ladder returns MARKET_CATCH_UP at 24.5, so
the implementation does not realize the simple ladder variant at this input
(and it exposes no configuration input at all). -/
theorem c4_no_simple_ladder_mode :
    (engine scenario1m).strategy = "⚔️ OFFENSE (SCALE)" ∧
    (engine scenario1m).rec_price = 23.1 ∧
    simple_ladder scenario1s = (24.5, "MARKET_CATCH_UP") ∧
    (engine scenario1m).rec_price ≠ (simple_ladder scenario1s).1 ∧
    (engine scenario1m).strategy ≠ (simple_ladder scenario1s).2 := by
  have h1 : engine scenario1m =
      { rec_price := 23.1, strategy := "⚔️ OFFENSE (SCALE)",
        strat_res := none } := by
    norm_num [engine, scenario1m, actual_acos, be_acos, net_profit, total_cost,
      cpa, refund_tax, margin_dollar, min_def, max_def]
  have h2 : simple_ladder scenario1s = (24.5, "MARKET_CATCH_UP") := by
    norm_num [simple_ladder, scenario1s, price_from_margin, cur_margin_pct,
      min_def, max_def]
  refine ⟨by rw [h1], by rw [h1], h2, ?_, ?_⟩ <;> rw [h1, h2]
  · norm_num
  · decide

/-- C4 amended: the engine is hardcoded to the platinum ladder — for every
input its strategy is one of the seven platinum labels, never the simple
ladder's distinctive MARKET_CATCH_UP or BLOCKED labels, so no input (and
hence no configuration, as none exists) activates the simple variant. -/
theorem c4_platinum_only (m : Metrics) :
    (engine m).strategy ≠ "MARKET_CATCH_UP" ∧
    (engine m).strategy ≠ "BLOCKED" := by
  unfold engine
  split_ifs <;> refine ⟨?_, ?_⟩ <;> dsimp only <;> decide

/-- C5: `refund_tax` is the refund formula strictly above 8.1 and exactly 0 at
or below 8.1, for every input. -/
theorem c5_refund_tax_threshold (m : Metrics) :
    (m.ret_rate > 8.1 → refund_tax m = m.ret_rate / 100 * m.curr_price) ∧
    (m.ret_rate ≤ 8.1 → refund_tax m = 0) := by
  constructor
  · intro h
    simp [refund_tax, h]
  · intro h
    simp [refund_tax, not_lt.mpr h]

/-- Witness for C5 at concrete inputs: return rate 9 (above threshold) and the
Scenario 3 input (return rate 2, at/below threshold). -/
theorem c5_refund_tax_threshold_witness :
    refund_tax { scenario3 with ret_rate := 9 } = 9 / 100 * 20 ∧
    refund_tax scenario3 = 0 := by
  refine ⟨?_, ?_⟩
  · have h := (c5_refund_tax_threshold { scenario3 with ret_rate := 9 }).1
      (by norm_num [scenario3])
    simpa [scenario3] using h
  · exact (c5_refund_tax_threshold scenario3).2 (by norm_num [scenario3])

/-- C7: on Scenario 3's concrete input the derived economics are
cpa = 5, actual_acos = 25, refund_tax = 0, net_profit = 5, be_acos = 50,
and the ladder fires OFFENSE (SCALE) with price min(22, 20·1.05) = 21. -/
theorem c7_scenario3_offense :
    cpa scenario3 = 5 ∧ actual_acos scenario3 = 25 ∧
    refund_tax scenario3 = 0 ∧ net_profit scenario3 = 5 ∧
    be_acos scenario3 = 50 ∧
    (engine scenario3).strategy = "⚔️ OFFENSE (SCALE)" ∧
    (engine scenario3).rec_price = min 22 (20 * 1.05) ∧
    (engine scenario3).rec_price = 21 := by
  refine ⟨?_, ?_, ?_, ?_, ?_, ?_, ?_, ?_⟩ <;>
    norm_num [cpa, actual_acos, refund_tax, net_profit, total_cost, be_acos,
      margin_dollar, engine, scenario3]

/-- C6: each division of the unit-economics calculator is independently
guarded: `cpa`, `actual_acos` and `be_acos` are 0 when their denominator is 0
and are the stated quotient formulas otherwise (denominators are nonnegative
per the data model, so nonzero means strictly positive, matching the source's
`> 0` guards). -/
theorem c6_guarded_divisions (m : Metrics)
    (hu : 0 ≤ m.total_units) (ha : 0 ≤ m.ad_sales) (hp : 0 ≤ m.curr_price) :
    (m.total_units = 0 → cpa m = 0) ∧
    (m.total_units ≠ 0 → cpa m = m.ad_spend / m.total_units) ∧
    (m.ad_sales = 0 → actual_acos m = 0) ∧
    (m.ad_sales ≠ 0 → actual_acos m = m.ad_spend / m.ad_sales * 100) ∧
    (m.curr_price = 0 → be_acos m = 0) ∧
    (m.curr_price ≠ 0 →
      be_acos m = (m.curr_price - (m.cost + refund_tax m)) / m.curr_price
        * 100) := by
  refine ⟨?_, ?_, ?_, ?_, ?_, ?_⟩
  · intro h; simp [cpa, h]
  · intro h
    have hpos : 0 < m.total_units := lt_of_le_of_ne hu (Ne.symm h)
    simp [cpa, hpos]
  · intro h; simp [actual_acos, h]
  · intro h
    have hpos : 0 < m.ad_sales := lt_of_le_of_ne ha (Ne.symm h)
    simp [actual_acos, hpos]
  · intro h; simp [be_acos, h]
  · intro h
    have hpos : 0 < m.curr_price := lt_of_le_of_ne hp (Ne.symm h)
    simp [be_acos, margin_dollar, hpos]

/-- Witness for C6 at Scenario 3's input (all three denominators positive). -/
theorem c6_guarded_divisions_witness :
    cpa scenario3 = 500 / 100 ∧
    actual_acos scenario3 = 500 / 2000 * 100 ∧
    be_acos scenario3 = (20 - (10 + refund_tax scenario3)) / 20 * 100 := by
  have h := c6_guarded_divisions scenario3 (by norm_num [scenario3])
    (by norm_num [scenario3]) (by norm_num [scenario3])
  refine ⟨?_, ?_, ?_⟩
  · simpa [scenario3] using h.2.1 (by norm_num [scenario3])
  · simpa [scenario3] using h.2.2.2.1 (by norm_num [scenario3])
  · simpa [scenario3] using h.2.2.2.2.2 (by norm_num [scenario3])

/-- `cpa` is nonnegative when ad spend is nonnegative. -/
theorem cpa_nonneg (m : Metrics) (hsp : 0 ≤ m.ad_spend) : 0 ≤ cpa m := by
  unfold cpa
  split_ifs with h
  · exact div_nonneg hsp h.le
  · exact le_rfl

/-- `refund_tax` is nonnegative when return rate and price are nonnegative. -/
theorem refund_tax_nonneg (m : Metrics) (hret : 0 ≤ m.ret_rate)
    (hp : 0 ≤ m.curr_price) : 0 ≤ refund_tax m := by
  unfold refund_tax
  split_ifs with h
  · exact mul_nonneg (div_nonneg hret (by norm_num)) hp
  · exact le_rfl

/-- C8: for every valid non-degenerate input (positive price, nonnegative
metric fields, min margin in [0,100)) the recommended price is nonnegative,
whichever of the seven ladder rules fires. -/
theorem c8_price_nonneg (m : Metrics)
    (hp : 0 < m.curr_price) (hc : 0 ≤ m.cost) (hcomp : 0 ≤ m.comp_price)
    (hinv : 0 ≤ m.inv_days) (hret : 0 ≤ m.ret_rate) (hsp : 0 ≤ m.ad_spend)
    (hsa : 0 ≤ m.ad_sales) (hu : 0 ≤ m.total_units)
    (hm0 : 0 ≤ m.min_margin) (hm1 : m.min_margin < 100) :
    0 ≤ (engine m).rec_price := by
  unfold engine
  split_ifs with h1 h2 h3 h4 h5 h6 <;> dsimp only
  · exact hp.le
  · exact le_max_of_le_left (mul_nonneg hc (by norm_num))
  · exact hp.le
  · have hden : 0 < 1 - m.min_margin / 100 := by
      have : m.min_margin / 100 < 1 :=
        (div_lt_one (by norm_num : (0:ℚ) < 100)).mpr hm1
      linarith
    have htc : 0 ≤ total_cost m :=
      add_nonneg (add_nonneg hc (cpa_nonneg m hsp))
        (refund_tax_nonneg m hret hp.le)
    exact div_nonneg htc hden.le
  · exact le_min hcomp (mul_nonneg hp.le (by norm_num))
  · exact mul_nonneg hcomp (by norm_num)
  · exact hp.le

/-- Witness for C8 at Scenario 3's input. -/
theorem c8_price_nonneg_witness : 0 ≤ (engine scenario3).rec_price :=
  c8_price_nonneg scenario3 (by norm_num [scenario3]) (by norm_num [scenario3])
    (by norm_num [scenario3]) (by norm_num [scenario3])
    (by norm_num [scenario3]) (by norm_num [scenario3])
    (by norm_num [scenario3]) (by norm_num [scenario3])
    (by norm_num [scenario3]) (by norm_num [scenario3])

/-- Rounding to 2 decimals is idempotent. -/
theorem round2_idempotent (q : ℚ) : round2 (round2 q) = round2 q := by
  unfold round2
  have h : (((round (q * 100) : ℤ) : ℚ) / 100) * 100
      = ((round (q * 100) : ℤ) : ℚ) :=
    div_mul_cancel₀ _ (by norm_num)
  rw [h, round_intCast]

/-- C9: the recommended price is rounded to 2 decimals only at the display
boundary (the displayed price is `round2` of the engine's price), the
rounding is idempotent (rounding twice equals rounding once), and the
engine's internal price keeps full precision (at `fracInput` it is 250/7,
which a 2-decimal rounding would alter). -/
theorem c9_rounding_boundary :
    (∀ m : Metrics, displayed_price m = round2 ((engine m).rec_price) ∧
      round2 (displayed_price m) = displayed_price m) ∧
    (engine fracInput).rec_price = 250 / 7 ∧
    round2 ((engine fracInput).rec_price) ≠ (engine fracInput).rec_price := by
  have hfrac : (engine fracInput).rec_price = 250 / 7 := by
    norm_num [engine, fracInput, actual_acos, be_acos, net_profit, total_cost,
      cpa, refund_tax, margin_dollar]
  refine ⟨fun m => ⟨rfl, round2_idempotent ((engine m).rec_price)⟩, hfrac, ?_⟩
  rw [hfrac]
  norm_num [round2, round_eq]

/-- C10: whenever the OFFENSE (SCALE) or CATCH UP rule fires on an input with
positive current price, the recommended price is strictly greater than the
current price. -/
theorem c10_growth_rules_raise_price (m : Metrics) (hp : 0 < m.curr_price)
    (h : firedRule m = Rule.offense ∨ firedRule m = Rule.catchUp) :
    m.curr_price < (engine m).rec_price := by
  unfold firedRule at h
  unfold engine
  split_ifs at h ⊢ with h1 h2 h3 h4 h5 h6 <;> dsimp only <;> simp at h
  · exact lt_min h5.2.2 (by nlinarith)
  · nlinarith [h6]

/-- Witness for C10: OFFENSE (SCALE) fires on Scenario 3's input, and the
recommended price 21 exceeds the current price 20. -/
theorem c10_growth_rules_raise_price_witness :
    scenario3.curr_price < (engine scenario3).rec_price :=
  c10_growth_rules_raise_price scenario3 (by norm_num [scenario3])
    (Or.inl (by
      norm_num [firedRule, scenario3, actual_acos, be_acos, net_profit,
        total_cost, cpa, refund_tax, margin_dollar]))
